import Mathlib

/-!
Verification development for the `skyant.scrapper` catalog-mining package.

The Python sources are shallowly embedded as pure Lean functions:

* `src/skyant/scrapper/_field.py` (`Field.__init__`, `Field.__call__`,
  `Field.normalizer`) — `fieldInit`, `fieldCall`, `normalizer`, `fieldEvaluate`;
* `src/skyant/scrapper/_loader.py` (`Loader._thereare_` and the surrounding
  `try/except TimeoutException` in `Loader.__init__`) — `thereareRun`,
  `initThereare`;
* `src/skyant/scrapper/catalog/_search.py` (`SearchPage.__init__`,
  `SearchPage._load`, `SearchPage.mine`) — `searchInit`, `loadLoop`, `mineRun`;
* `src/skyant/scrapper/catalog/_item.py` (`ItemPage.__init__`,
  `ItemPage._processing`, `ItemPage.__call__`) — `itemRun`, `procMap`,
  `buildData`.

External collaborators (the selenium driver, lxml parsing/xpath, base64
decoding, pydantic validation) are modelled as oracles passed in as
parameters; everything the repository's own code does with their results is
translated statement by statement.
-/

namespace Scrapper

/-! ### Values

`XVal` models one element of an xpath query result: lxml yields either a
string (text node / attribute) or an element-node handle.  `PyData` models the
Python values that flow out of `Field`: `None`, a single string, a single node
handle, or a list of query elements. -/

inductive XVal where
  | str : String → XVal
  | node : Nat → XVal
deriving DecidableEq, Repr

inductive PyData where
  | null : PyData
  | str : String → PyData
  | node : Nat → PyData
  | list : List XVal → PyData
deriving DecidableEq, Repr

/-- Python truthiness for the values above (`if self.content:`, `assert self.url`). -/
def truthy : PyData → Bool
  | PyData.null => false
  | PyData.str s => !s.isEmpty
  | PyData.node _ => true
  | PyData.list l => !l.isEmpty

/-- Python `str.strip()`: drop leading and trailing whitespace.  Written over
the character list so that it evaluates by structural recursion. -/
def pyStrip (s : String) : String :=
  String.mk (((s.toList.dropWhile Char.isWhitespace).reverse.dropWhile
    Char.isWhitespace).reverse)

/-- `i.strip() if isinstance(i, str) else i` applied to one query element. -/
def stripX : XVal → XVal
  | XVal.str s => XVal.str (pyStrip s)
  | x => x

/-- Coercion of a single query element into the `Field.content` value space. -/
def toData : XVal → PyData
  | XVal.str s => PyData.str s
  | XVal.node n => PyData.node n

/-! ### Field.__init__ (src/skyant/scrapper/_field.py, lines 75–114)

The xpath query result is the oracle `q : Option (List XVal)`; `none` models
`tree.xpath` raising (the broad `except` then sets `self.content = None`).

The Python code then runs, in this order:
1. `if self.content:` — Python truthiness, so a raised query (`None`) and an
   empty result list (`[]`) both skip the block.  Inside, `len > 0` picks the
   whole list (`array=True`) or its first element; the
   `elif len(self.content) == 0: self.content = None` branch is unreachable,
   because `if self.content:` already required a non-empty list.
2. the strip stage: a `str` content is stripped, a `list` content has each
   string element stripped, anything else is left alone. -/

def fieldInit (array : Bool) : Option (List XVal) → PyData
  | none => PyData.null
  | some [] => PyData.list []
  | some (v :: vs) =>
      if array then PyData.list ((v :: vs).map stripX)
      else toData (stripX v)

/-! ### Field.normalizer (lines 123–161)

The autocorrection table is the ordered dict `List (String × List String)`
(canonical value ↦ raw variants).  Crucially, `value.append(key)` mutates the
variant list stored in the class-level dict, so `normalizer` is modelled in
state-passing style: it returns the result string together with the table as
it stands after the call. -/

def normalizer (origin : String) : List (String × List String) →
    String × List (String × List String)
  | [] => (origin, [])
  | (key, value) :: rest =>
      let value' := value ++ [key]
      if origin ∈ value' then (key, (key, value') :: rest)
      else
        let r := normalizer origin rest
        (r.1, (key, value') :: r.2)

/-- The list comprehension in `Field.__call__`: `normalizer` applied to each
string element in order, with the table mutations accumulating. -/
def normalizerList : List XVal → List (String × List String) →
    List XVal × List (String × List String)
  | [], tbl => ([], tbl)
  | XVal.str s :: r, tbl =>
      let p := normalizer s tbl
      let q := normalizerList r p.2
      (XVal.str p.1 :: q.1, q.2)
  | x :: r, tbl =>
      let q := normalizerList r tbl
      (x :: q.1, q.2)

/-! ### Field.__call__ (lines 163–182)

`parser` is the default identity stub, so `data = self.content`.  If the class
has an `autocorrection` attribute (`tbl = some _`), a string is normalized and
a list has its string elements normalized.  The `except` branch can only fire
if `parser`/`normalizer` raise, which the typed embedding rules out. -/

def fieldCall (tbl : Option (List (String × List String))) (content : PyData) :
    PyData × Option (List (String × List String)) :=
  match tbl with
  | none => (content, none)
  | some t =>
      match content with
      | PyData.str s =>
          let p := normalizer s t
          (PyData.str p.1, some p.2)
      | PyData.list l =>
          let p := normalizerList l t
          (PyData.list p.1, some p.2)
      | x => (x, some t)

/-- One full `Field(tree)()` evaluation: `__init__` on the query result,
then `__call__`; returns the produced value and the autocorrection table as
left behind by the call. -/
def fieldEvaluate (array : Bool) (tbl : Option (List (String × List String)))
    (q : Option (List XVal)) : PyData × Option (List (String × List String)) :=
  fieldCall tbl (fieldInit array q)

/-- Whether a `Field` result is a sequence-typed value (a Python `list`). -/
def isSequence : PyData → Bool
  | PyData.list _ => true
  | _ => false

/-- String-membership in a `Field` result: `s` is the single returned string,
or one of the string elements of a returned sequence. -/
def strMem (s : String) : PyData → Prop
  | PyData.str t => s = t
  | PyData.list l => XVal.str s ∈ l
  | _ => False

instance (s : String) (d : PyData) : Decidable (strMem s d) :=
  match d with
  | PyData.null => inferInstanceAs (Decidable False)
  | PyData.str t => inferInstanceAs (Decidable (s = t))
  | PyData.node _ => inferInstanceAs (Decidable False)
  | PyData.list l => inferInstanceAs (Decidable (XVal.str s ∈ l))

/-! ### Loader._thereare_ and its wrapper (src/skyant/scrapper/_loader.py)

`_thereare_` (lines 157–169) walks the required-presence selectors with a
shared budget `free_timeout`.  Each `WebDriverWait(driver, free_timeout).until(
presence_of_element_located(...))` either returns after some wall-clock time
(the code subtracts `round(time.time() - start)`) or raises selenium's
`TimeoutException` when the element never appears within the budget.  The
driver's behaviour is the oracle trace `List WaitEv`.  After a *successful*
wait the code subtracts the rounded elapsed time and raises the *builtin*
`TimeoutError` if the remaining budget became negative. -/

inductive WaitEv where
  /-- the presence wait returned; the rounded elapsed wall-clock seconds. -/
  | found : Nat → WaitEv
  /-- the presence wait exhausted its budget without a match:
  selenium `TimeoutException`. -/
  | timedOut : WaitEv
deriving DecidableEq, Repr

inductive ThereOutcome where
  /-- the loop finished: every selector's wait returned. -/
  | ok : ThereOutcome
  /-- the builtin `TimeoutError` raised by `_thereare_` itself
  (`if free_timeout < 0: raise TimeoutError(...)`). -/
  | timeoutErrorRaised : ThereOutcome
  /-- selenium's `TimeoutException` escaping from `WebDriverWait.until`. -/
  | timeoutExceptionRaised : ThereOutcome
deriving DecidableEq, Repr

/-- `Loader._thereare_`, lines 157–169. -/
def thereareRun (free : Int) : List WaitEv → ThereOutcome
  | [] => ThereOutcome.ok
  | WaitEv.timedOut :: _ => ThereOutcome.timeoutExceptionRaised
  | WaitEv.found e :: rest =>
      if free - e < 0 then ThereOutcome.timeoutErrorRaised
      else thereareRun (free - e) rest

inductive LoadOutcome where
  /-- `Loader.__init__` ran past the `thereare` phase. -/
  | completed : LoadOutcome
  /-- `Loader.__init__` raised out of the `thereare` phase. -/
  | failed : LoadOutcome
deriving DecidableEq, Repr

/-- Lines 244–248 of `Loader.__init__`: the call to `_thereare_` is wrapped in
`try ... except TimeoutException: log.warning(...)`.  Selenium's
`TimeoutException` is caught and only logged (the load goes on), while the
builtin `TimeoutError` raised by `_thereare_` is not a `TimeoutException` and
propagates, failing the load. -/
def initThereare (timeout : Int) (evs : List WaitEv) : LoadOutcome :=
  match thereareRun timeout evs with
  | ThereOutcome.ok => LoadOutcome.completed
  | ThereOutcome.timeoutExceptionRaised => LoadOutcome.completed
  | ThereOutcome.timeoutErrorRaised => LoadOutcome.failed

/-- All events of a trace segment are successful waits. -/
def allFound : List WaitEv → Bool
  | [] => true
  | WaitEv.found _ :: r => allFound r
  | WaitEv.timedOut :: _ => false

/-- Total rounded elapsed time of the successful waits in a trace segment. -/
def sumElapsed : List WaitEv → Int
  | [] => 0
  | WaitEv.found e :: r => (e : Int) + sumElapsed r
  | WaitEv.timedOut :: r => sumElapsed r

/-! ### SearchPage.mine (src/skyant/scrapper/catalog/_search.py, lines 116–150)

Two loops over a card list: the submission loop runs `item(card)` (the whole
`ItemPage.__init__`) inside `try/except Exception: log.warning` and keeps only
the successfully constructed instances; the collection loop takes each
future's `result()` inside the same kind of `try/except` and keeps only the
values.  `concurrent.futures.as_completed` yields results in completion order;
the model keeps submission order, which is a permutation-faithful rendering —
*which* tasks contribute a result is what the code determines, their order is
scheduler nondeterminism. -/

def submitLoop {τ ι ε : Type} (construct : τ → Except ε ι) : List τ → List ι
  | [] => []
  | c :: r =>
      match construct c with
      | Except.ok inst => inst :: submitLoop construct r
      | Except.error _ => submitLoop construct r

def collectLoop {ι ρ ε : Type} (run : ι → Except ε ρ) : List ι → List ρ
  | [] => []
  | f :: r =>
      match run f with
      | Except.ok v => v :: collectLoop run r
      | Except.error _ => collectLoop run r

/-- `SearchPage.mine`: submit every card, collect every future. -/
def mineRun {τ ι ρ ε : Type} (cards : List τ) (construct : τ → Except ε ι)
    (run : ι → Except ε ρ) : List ρ :=
  collectLoop run (submitLoop construct cards)

/-! ### SearchPage.__init__ / _load (lines 56–102)

A listing site is the oracle `site : Nat → List ι × Option Nat` (URL ↦ the
"Items" extraction on that page's tree, and the truthy "Next" URL if any; the
`Option` already folds in the Python truthiness test `if next_url:`).
`_load` is a while-loop re-entered through recursion with the instance
counter preserved, so it is one loop whose condition
`self._counter < self._depth or self._depth == 0` is re-checked before every
page load; `loadLoop` carries fuel because the `depth == 0` variant need not
terminate (`none` = fuel exhausted, i.e. the loop is still running).  The
returned pair records which URLs were actually loaded and the accumulated
teaser fields. -/

def loadLoop {ι : Type} (site : Nat → List ι × Option Nat) (hasNext : Bool)
    (depth : Nat) : Nat → Nat → Nat → List ι → List Nat →
    Option (List Nat × List ι)
  | 0, _, _, _, _ => none
  | fuel + 1, counter, url, fields, loaded =>
      if counter < depth ∨ depth = 0 then
        let page := site url
        let nextUrl := if hasNext then page.2 else none
        let fields' := fields ++ page.1
        let loaded' := loaded ++ [url]
        match nextUrl with
        | some u => loadLoop site hasNext depth fuel (counter + 1) u fields' loaded'
        | none => some (loaded', fields')
      else some (loaded, fields)

inductive CfgError where
  /-- `assert depth >= 0 and isinstance(depth, int)` failed. -/
  | badDepth : CfgError
  /-- `The class attribute "Next" is obligatory for the depth != 1!` -/
  | nextRequired : CfgError
deriving DecidableEq, Repr

/-- `SearchPage.__init__`: the two construction-time asserts, then `_load`.
`hasNext` models `hasattr(self, 'Next') and self.Next is not None`. -/
def searchInit {ι : Type} (site : Nat → List ι × Option Nat) (hasNext : Bool)
    (depth : Int) (url : Nat) (fuel : Nat) :
    Except CfgError (Option (List Nat × List ι)) :=
  if depth < 0 then Except.error CfgError.badDepth
  else if ¬hasNext ∧ depth ≠ 1 then Except.error CfgError.nextRequired
  else Except.ok (loadLoop site hasNext depth.toNat fuel 0 url [] [])

/-! ### ItemPage (src/skyant/scrapper/catalog/_item.py)

The `datamap` class attribute is the recursive template: each key maps to a
`Field` subclass (modelled by an abstract field identifier, its evaluation
outcome supplied by an oracle), a nested datamap, or a literal value. -/

mutual
inductive DVal where
  | fieldRef : String → DVal
  | nested : DMapL → DVal
  | lit : PyData → DVal
inductive DMapL where
  | nil : DMapL
  | cons : String → DVal → DMapL → DMapL
end

/-! `ItemPage._processing` (lines 117–144): a `Field`-class entry is replaced
by `field(self.tree[field.source.value])()` — the oracle
`env : String → Except Unit PyData`, where `Except.error` stands for any
exception in the lookup or the field call, turned into `None` by the
`except Exception` handler; a nested dict recurses; anything else is written
back unchanged. -/

mutual
def procVal (env : String → Except Unit PyData) : DVal → DVal
  | DVal.fieldRef f =>
      DVal.lit (match env f with
        | Except.ok v => v
        | Except.error _ => PyData.null)
  | DVal.nested m => DVal.nested (procMap env m)
  | DVal.lit v => DVal.lit v
def procMap (env : String → Except Unit PyData) : DMapL → DMapL
  | DMapL.nil => DMapL.nil
  | DMapL.cons k v r => DMapL.cons k (procVal env v) (procMap env r)
end

inductive ItemErr where
  /-- `e.WrongBase64(self.__class__.__name__)`: the argument is the
  aggregator's type name. -/
  | wrongBase64 : String → ItemErr
  /-- a Python `assert` in `ItemPage.__init__` failed, with its message. -/
  | assertionFailed : String → ItemErr
deriving DecidableEq, Repr

/-- `ItemPage.__call__` outcome when the instance holds data:
the raw `_data` dict, or `self.model.json()` when an `Adept` validated it. -/
inductive ItemOut where
  | raw : DMapL → ItemOut
  | validated : String → ItemOut

/-- One `ItemPage` subclass configuration together with the external oracles
it consumes.  `decodeParse` is `html.fromstring(b64decode(s).decode())`
(`none` = any exception inside); `childEval` is the `Child` field evaluated on
the parent tree; `loadChild` is `self.Loader(self.url)()`; `fieldEnv parent
child` feeds `_processing`; `adept` is the optional pydantic model
(`none` at a record = the constructor raised, i.e. validation failed,
`some j` = the validated model whose `.json()` is `j`). -/
structure ItemCfg (Doc : Type) where
  typeName : String
  decodeParse : String → Option Doc
  childEval : Doc → PyData
  loadChild : PyData → Doc
  fieldEnv : Doc → Doc → String → Except Unit PyData
  datamap : DMapL
  adept : Option (DMapL → Option String)

/-- The record `_processing` assembles for a given parent document. -/
def assembledOf {Doc : Type} (cfg : ItemCfg Doc) (d : Doc) : DMapL :=
  procMap (cfg.fieldEnv d (cfg.loadChild (cfg.childEval d))) cfg.datamap

/-- `ItemPage.__init__` from the point where `parent` is a document, followed
by `ItemPage.__call__` (lines 154–157): resolve the URL (`assert self.url`),
load the child page, run `_processing`, then try the `Adept` validation; on
validation failure `_bad_data` is set and `__call__` returns `None`
(`Except.ok none`). -/
def itemBody {Doc : Type} (cfg : ItemCfg Doc) (parent : Doc) :
    Except ItemErr (Option ItemOut) :=
  let url := cfg.childEval parent
  if truthy url then
    let assembled := assembledOf cfg parent
    match cfg.adept with
    | none => Except.ok (some (ItemOut.raw assembled))
    | some f =>
        match f assembled with
        | some j => Except.ok (some (ItemOut.validated j))
        | none => Except.ok none
  else Except.error (ItemErr.assertionFailed "Empty url is not allowed!")

/-- Full `ItemPage(parent)()` invocation (lines 56–97 and 154–157): a string
parent is base64-decoded and parsed first, any failure raising
`WrongBase64(type name)`. -/
def itemRun {Doc : Type} (cfg : ItemCfg Doc) : String ⊕ Doc →
    Except ItemErr (Option ItemOut)
  | Sum.inl s =>
      match cfg.decodeParse s with
      | some d => itemBody cfg d
      | none => Except.error (ItemErr.wrongBase64 cfg.typeName)
  | Sum.inr d => itemBody cfg d

/-- The document `itemRun` ends up working on: the parse of a string parent,
or the supplied node itself. -/
def parseOf {Doc : Type} (cfg : ItemCfg Doc) : String ⊕ Doc → Option Doc
  | Sum.inl s => cfg.decodeParse s
  | Sum.inr d => some d

/-! ### The datamap frame effect (`ItemPage.__init__`, lines 56–89, and
`_processing`, lines 117–144)

`self._data = datamap if datamap else deepcopy(self.datamap)` and
`self._data = self._processing(self._data)` — `_processing` writes through
`data[key] = ...`, i.e. it mutates the object `self._data` refers to.  To
state which *object* gets written, objects live in an explicit heap
(`List DMapL`, references are indices).  The class attribute is one slot;
construction without an argument allocates a fresh deep copy and `_processing`
rewrites that slot only, while passing a reference as the `datamap` argument
makes `_processing` rewrite the referenced slot in place. -/

def buildData (heap : List DMapL) (classRef : Nat) (arg : Option Nat)
    (env : String → Except Unit PyData) : List DMapL × Nat :=
  match arg with
  | some r => (heap.set r (procMap env (heap.getD r DMapL.nil)), r)
  | none => (heap ++ [procMap env (heap.getD classRef DMapL.nil)], heap.length)

/-! ## Helper lemmas -/

theorem mineRun_eq_filterMap {τ ι ρ ε : Type} (cards : List τ)
    (construct : τ → Except ε ι) (run : ι → Except ε ρ) :
    mineRun cards construct run = cards.filterMap (fun c =>
      match construct c with
      | Except.error _ => none
      | Except.ok i =>
        match run i with
        | Except.error _ => none
        | Except.ok v => some v) := by
  induction cards with
  | nil => rfl
  | cons c r ih =>
    rw [List.filterMap_cons]
    cases hc : construct c with
    | error e => simpa [mineRun, submitLoop, hc] using ih
    | ok i =>
      cases hr : run i with
      | error e => simpa [mineRun, submitLoop, collectLoop, hc, hr] using ih
      | ok v => simpa [mineRun, submitLoop, collectLoop, hc, hr] using ih

theorem mineRun_append {τ ι ρ ε : Type} (l₁ l₂ : List τ)
    (construct : τ → Except ε ι) (run : ι → Except ε ρ) :
    mineRun (l₁ ++ l₂) construct run =
      mineRun l₁ construct run ++ mineRun l₂ construct run := by
  simp [mineRun_eq_filterMap]

theorem mineRun_cons_of_error {τ ι ρ ε : Type} (c : τ) (r : List τ)
    (construct : τ → Except ε ι) (run : ι → Except ε ρ) (e : ε)
    (h : construct c = Except.error e) :
    mineRun (c :: r) construct run = mineRun r construct run := by
  simp [mineRun, submitLoop, h]

theorem thereareRun_timeoutError_iff (evs : List WaitEv) (t : Int) :
    thereareRun t evs = ThereOutcome.timeoutErrorRaised ↔
      ∃ n, 0 < n ∧ n ≤ evs.length ∧ allFound (evs.take n) = true ∧
        t < sumElapsed (evs.take n) := by
  induction evs generalizing t with
  | nil =>
    constructor
    · intro h; simp [thereareRun] at h
    · rintro ⟨n, hn, hle, -, -⟩
      simp at hle; omega
  | cons v r ih =>
    cases v with
    | timedOut =>
      constructor
      · intro h; simp [thereareRun] at h
      · rintro ⟨n, hn, -, hall, -⟩
        obtain ⟨m, rfl⟩ : ∃ m, n = m + 1 := ⟨n - 1, by omega⟩
        simp [allFound] at hall
    | found e =>
      by_cases hb : t - (e : Int) < 0
      · constructor
        · intro _
          refine ⟨1, Nat.one_pos, by simp, by simp [allFound], ?_⟩
          simp only [List.take_succ_cons, List.take_zero, sumElapsed]
          omega
        · intro _
          rw [show thereareRun t (WaitEv.found e :: r) =
                if t - (e : Int) < 0 then ThereOutcome.timeoutErrorRaised
                else thereareRun (t - e) r from rfl,
              if_pos hb]
      · rw [show thereareRun t (WaitEv.found e :: r) =
              if t - (e : Int) < 0 then ThereOutcome.timeoutErrorRaised
              else thereareRun (t - e) r from rfl,
            if_neg hb, ih]
        constructor
        · rintro ⟨m, hm, hle, hall, hsum⟩
          refine ⟨m + 1, by omega, by simpa using Nat.succ_le_succ hle, ?_, ?_⟩
          · simpa [List.take_succ_cons, allFound] using hall
          · simp only [List.take_succ_cons, sumElapsed]
            omega
        · rintro ⟨n, hn, hle, hall, hsum⟩
          obtain ⟨m, rfl⟩ : ∃ m, n = m + 1 := ⟨n - 1, by omega⟩
          simp only [List.take_succ_cons, allFound, sumElapsed] at hall hsum
          rcases Nat.eq_zero_or_pos m with hm | hm
          · subst hm
            simp only [List.take_zero, sumElapsed] at hsum
            omega
          · refine ⟨m, hm, ?_, hall, by omega⟩
            simp at hle; omega

theorem initThereare_failed_iff (t : Int) (evs : List WaitEv) :
    initThereare t evs = LoadOutcome.failed ↔
      thereareRun t evs = ThereOutcome.timeoutErrorRaised := by
  unfold initThereare
  cases h : thereareRun t evs <;> simp [h]

/-! ## Claim theorems -/

/-- Claim C1: `SearchPage.mine` logs and excludes every harvesting task that
fails during submission (`executor.submit(item(card))`, i.e. the whole
`ItemPage` construction) or during execution (`future.result()`), and returns
exactly the results of the tasks that succeeded.  The total function `mineRun`
embeds both `try/except` loops, so no batch input makes the call itself fail:
the result is exactly the `filterMap` of the per-task outcomes (given 5 cards
where one construction or execution errors, the 4 remaining values are
returned). -/
theorem C1_mine_returns_succeeded {τ ι ρ ε : Type} (cards : List τ)
    (construct : τ → Except ε ι) (run : ι → Except ε ρ) :
    mineRun cards construct run = cards.filterMap (fun c =>
      match construct c with
      | Except.error _ => none
      | Except.ok i =>
        match run i with
        | Except.error _ => none
        | Except.ok v => some v) :=
  mineRun_eq_filterMap cards construct run

/-- Claim C2 counterexample: the claim says a required-presence wait that
exhausts the remaining budget before a matching element appears fails the
whole load.  In the code that wait raises selenium's `TimeoutException`, which
`Loader.__init__` catches and merely logs (`except TimeoutException:
log.warning(...)`): with budget 3 and a single required selector whose wait
times out (`WaitEv.timedOut`), the load completes even though the selector was
never found. -/
theorem C2_counterexample_timeout_swallowed :
    ¬ ∀ (t : Int) (evs : List WaitEv), WaitEv.timedOut ∈ evs →
        initThereare t evs = LoadOutcome.failed := by
  intro h
  have h3 := h 3 [WaitEv.timedOut] (by simp)
  exact absurd h3 (by decide)

/-- Claim C2 amended: the load fails with a timeout error exactly when some
required-presence wait *returns successfully* but the rounded elapsed times of
the successful waits so far exceed the budget (the builtin `TimeoutError` of
`_thereare_` propagates through `__init__`); a wait that exhausts its budget
without the element appearing raises selenium's `TimeoutException`, which
`__init__` catches and logs, skipping the remaining selectors and completing
the load. -/
theorem C2_amended_budget_overrun_fatal (t : Int) (evs : List WaitEv) :
    initThereare t evs = LoadOutcome.failed ↔
      ∃ n, 0 < n ∧ n ≤ evs.length ∧ allFound (evs.take n) = true ∧
        t < sumElapsed (evs.take n) := by
  rw [initThereare_failed_iff, thereareRun_timeoutError_iff]

/-- Claim C3 (code bug): the spec says a query that succeeds with zero nodes
yields `None`, and `Field.__init__` even contains the branch
`elif len(self.content) == 0: self.content = None` — but that branch is
unreachable because it sits under `if self.content:`, which an empty list
fails.  An empty query result therefore flows through unchanged and `Field()`
returns the empty list `[]`, not `None`, for both array modes. -/
theorem C3_zero_nodes_empty_list :
    fieldEvaluate false none (some []) = (PyData.list [], none) ∧
    fieldEvaluate true none (some []) = (PyData.list [], none) ∧
    PyData.list [] ≠ PyData.null := by
  refine ⟨rfl, rfl, by decide⟩

/-- Claim C4 (code bug): with `array = False` and a query that matches zero
nodes, `Field()` returns the empty list — a sequence-typed value — through the
same unreachable-`None` slip as C3, contradicting the invariant that a
non-array field never returns a sequence. -/
theorem C4_nonarray_returns_sequence :
    isSequence (fieldEvaluate false none (some [])).1 = true ∧
    (fieldEvaluate false none (some [])).1 ≠ PyData.null := by
  refine ⟨rfl, by decide⟩

/-- Claim C9 counterexample: `Field` auto-trims string results, so a text node
consisting only of whitespace produces the empty string — the claim that
evaluation never produces the empty string is false. -/
theorem C9_counterexample_empty_string :
    fieldEvaluate false none (some [XVal.str "  "]) = (PyData.str "", none) := by
  decide

/-- Claim C9 amended: string results are auto-trimmed — every string the field
returns (as the single value or as an element of a returned sequence, absent
normalization) is the trim of a string the query produced; in particular a
whitespace-only extracted text yields the empty string rather than being
suppressed. -/
theorem C9_amended_strings_trimmed (array : Bool) (q : List XVal) (s : String)
    (h : strMem s (fieldEvaluate array none (some q)).1) :
    ∃ t, XVal.str t ∈ q ∧ s = pyStrip t := by
  cases q with
  | nil => cases array <;> simp [fieldEvaluate, fieldCall, fieldInit, strMem] at h
  | cons v vs =>
    cases array with
    | true =>
      simp only [fieldEvaluate, fieldCall, fieldInit, if_pos, strMem,
        List.mem_map] at h
      obtain ⟨x, hx, hsx⟩ := h
      cases x with
      | str u => exact ⟨u, hx, by simp [stripX] at hsx; exact hsx.symm⟩
      | node n => simp [stripX] at hsx
    | false =>
      cases v with
      | str u =>
        simp only [fieldEvaluate, fieldCall, fieldInit, stripX, toData,
          strMem] at h
        exact ⟨u, List.mem_cons_self _ _, h⟩
      | node n =>
        simp [fieldEvaluate, fieldCall, fieldInit, stripX, toData, strMem] at h

/-- Claim C9 amended, witness: the field evaluated on the single text node
`" a "` returns `"a"`, the trim of a produced string. -/
theorem C9_amended_witness : ∃ t, XVal.str t ∈ [XVal.str " a "] ∧ "a" = pyStrip t :=
  C9_amended_strings_trimmed false [XVal.str " a "] "a" (by decide)

theorem itemBody_ok_none_iff {Doc : Type} (cfg : ItemCfg Doc) (d : Doc) :
    itemBody cfg d = Except.ok none ↔
      truthy (cfg.childEval d) = true ∧
        ∃ f, cfg.adept = some f ∧ f (assembledOf cfg d) = none := by
  unfold itemBody
  by_cases ht : truthy (cfg.childEval d) = true
  · cases ha : cfg.adept with
    | none => simp [ht, ha]
    | some f =>
      cases hf : f (assembledOf cfg d) with
      | none => simp [ht, ha, hf]
      | some j => simp [ht, ha, hf]
  · simp [ht]

theorem itemBody_error_iff {Doc : Type} (cfg : ItemCfg Doc) (d : Doc)
    (e : ItemErr) :
    itemBody cfg d = Except.error e ↔
      truthy (cfg.childEval d) = false ∧
        e = ItemErr.assertionFailed "Empty url is not allowed!" := by
  unfold itemBody
  by_cases ht : truthy (cfg.childEval d) = true
  · cases ha : cfg.adept with
    | none => simp [ht, ha]
    | some f =>
      cases hf : f (assembledOf cfg d) with
      | none => simp [ht, ha, hf]
      | some j => simp [ht, ha, hf]
  · simp [ht, eq_comm]

/-- Configuration exercising a schema-validation failure: every oracle
succeeds, the child URL is truthy, and the pydantic `Adept` constructor
rejects every record. -/
def cfgBadData : ItemCfg Unit where
  typeName := "ItemPage"
  decodeParse := fun _ => some ()
  childEval := fun _ => PyData.str "https://example.com/item"
  loadChild := fun _ => ()
  fieldEnv := fun _ _ _ => Except.error ()
  datamap := DMapL.nil
  adept := some (fun _ => none)

/-- Claim C5 counterexample: with a well-formed teaser node (no malformed
reference, truthy child URL) and an `Adept` that rejects the assembled record,
the invocation completes and returns `None` — the code's `__call__` maps the
bad-data flag to `None` instead of a placeholder, so null is returned in the
validation-failure case, which the claim says never happens. -/
theorem C5_counterexample_validation_null :
    itemRun cfgBadData (Sum.inr ()) = Except.ok none ∧
    truthy (cfgBadData.childEval ()) = true := by
  refine ⟨rfl, by decide⟩

/-- Claim C5 amended: a completed `ItemPage(parent)()` invocation returns
`None` exactly when the configured `Adept` rejects the assembled record
(validation failure never raises); the malformed-reference and unresolved-URL
cases raise (`WrongBase64` carrying the type name, `AssertionError`) instead
of returning null. -/
theorem C5_amended_null_iff_validation {Doc : Type} (cfg : ItemCfg Doc)
    (input : String ⊕ Doc) :
    (itemRun cfg input = Except.ok none ↔
      ∃ d, parseOf cfg input = some d ∧ truthy (cfg.childEval d) = true ∧
        ∃ f, cfg.adept = some f ∧ f (assembledOf cfg d) = none)
    ∧ (∀ e, itemRun cfg input = Except.error e →
        (parseOf cfg input = none ∧ e = ItemErr.wrongBase64 cfg.typeName) ∨
        (∃ d, parseOf cfg input = some d ∧ truthy (cfg.childEval d) = false ∧
          e = ItemErr.assertionFailed "Empty url is not allowed!")) := by
  cases input with
  | inl s =>
    cases hd : cfg.decodeParse s with
    | none =>
      constructor
      · simp [itemRun, parseOf, hd]
      · intro e he
        simp only [itemRun, hd] at he
        exact Or.inl ⟨by simp [parseOf, hd], by
          cases he; rfl⟩
    | some d =>
      constructor
      · rw [show itemRun cfg (Sum.inl s) = itemBody cfg d by simp [itemRun, hd],
            itemBody_ok_none_iff]
        simp [parseOf, hd]
      · intro e he
        rw [show itemRun cfg (Sum.inl s) = itemBody cfg d by
              simp [itemRun, hd]] at he
        rw [itemBody_error_iff] at he
        exact Or.inr ⟨d, by simp [parseOf, hd], he.1, he.2⟩
  | inr d =>
    constructor
    · rw [show itemRun cfg (Sum.inr d) = itemBody cfg d from rfl,
          itemBody_ok_none_iff]
      simp [parseOf]
    · intro e he
      rw [show itemRun cfg (Sum.inr d) = itemBody cfg d from rfl,
          itemBody_error_iff] at he
      exact Or.inr ⟨d, rfl, he.1, he.2⟩

/-- Configuration exercising the unresolved-URL abort: the `Child` field
evaluates to `None`, so `assert self.url` fails. -/
def cfgEmptyUrl : ItemCfg Unit where
  typeName := "ItemPage"
  decodeParse := fun _ => some ()
  childEval := fun _ => PyData.null
  loadChild := fun _ => ()
  fieldEnv := fun _ _ _ => Except.error ()
  datamap := DMapL.nil
  adept := none

/-- Claim C5 amended, witness: on a configuration whose `Child` field resolves
to `None`, the raised error is classified by the amended theorem as the
unresolved-URL assertion, not a returned null. -/
theorem C5_amended_witness :
    (parseOf cfgEmptyUrl (Sum.inr ()) = none ∧
      ItemErr.assertionFailed "Empty url is not allowed!" =
        ItemErr.wrongBase64 cfgEmptyUrl.typeName) ∨
    (∃ d, parseOf cfgEmptyUrl (Sum.inr ()) = some d ∧
      truthy (cfgEmptyUrl.childEval d) = false ∧
      ItemErr.assertionFailed "Empty url is not allowed!" =
        ItemErr.assertionFailed "Empty url is not allowed!") :=
  (C5_amended_null_iff_validation cfgEmptyUrl (Sum.inr ())).2
    (ItemErr.assertionFailed "Empty url is not allowed!") rfl

/-- Claim C6: a string teaser reference whose base64 decoding or markup
parsing fails (`decodeParse = none`) makes `ItemPage.__init__` raise
`WrongBase64` tagged with the aggregator's type name, and `mine` excludes that
item from the batch: the batch result is exactly the concatenation of the
results of the surrounding items. -/
theorem C6_malformed_reference_excluded {Doc : Type} (cfg : ItemCfg Doc)
    (s : String) (h : cfg.decodeParse s = none) (pre post : List (String ⊕ Doc)) :
    itemRun cfg (Sum.inl s) = Except.error (ItemErr.wrongBase64 cfg.typeName) ∧
    mineRun (pre ++ Sum.inl s :: post) (itemRun cfg) (fun r => Except.ok r) =
      mineRun pre (itemRun cfg) (fun r => Except.ok r) ++
      mineRun post (itemRun cfg) (fun r => Except.ok r) := by
  have h1 : itemRun cfg (Sum.inl s) =
      Except.error (ItemErr.wrongBase64 cfg.typeName) := by
    simp [itemRun, h]
  refine ⟨h1, ?_⟩
  rw [mineRun_append, mineRun_cons_of_error (Sum.inl s) post (itemRun cfg)
    (fun r => Except.ok r) (ItemErr.wrongBase64 cfg.typeName) h1]

/-- Configuration for the C6 witness: the decode oracle always fails, the
other oracles succeed. -/
def cfgMalformed : ItemCfg Unit where
  typeName := "ItemPage"
  decodeParse := fun _ => none
  childEval := fun _ => PyData.str "https://example.com/item"
  loadChild := fun _ => ()
  fieldEnv := fun _ _ _ => Except.ok (PyData.str "v")
  datamap := DMapL.nil
  adept := none

/-- Claim C6, witness: the teaser reference `"not-base64!!"` raises
`WrongBase64("ItemPage")` and a `mine` batch of one good teaser on each side
returns exactly those two items' results. -/
theorem C6_witness :
    itemRun cfgMalformed (Sum.inl "not-base64!!") =
      Except.error (ItemErr.wrongBase64 cfgMalformed.typeName) ∧
    mineRun ([Sum.inr ()] ++ Sum.inl "not-base64!!" :: [Sum.inr ()])
        (itemRun cfgMalformed) (fun r => Except.ok r) =
      mineRun [Sum.inr ()] (itemRun cfgMalformed) (fun r => Except.ok r) ++
      mineRun [Sum.inr ()] (itemRun cfgMalformed) (fun r => Except.ok r) :=
  C6_malformed_reference_excluded cfgMalformed "not-base64!!" rfl
    [Sum.inr ()] [Sum.inr ()]

/-- Claim C7: a `SearchPage` with no `Next` field accepts only `depth = 1`;
any other depth fails one of the two construction-time asserts, and the error
is produced before `_load` touches any page (the result is the same for every
site oracle, and carries no loaded URL).  With `depth = 1` construction
succeeds and exactly one listing page — the start URL — is loaded. -/
theorem C7_depth_requires_next {ι : Type} (site : Nat → List ι × Option Nat)
    (depth : Int) (url : Nat) (fuel : Nat) :
    (depth ≠ 1 → searchInit site false depth url fuel =
      Except.error (if depth < 0 then CfgError.badDepth else CfgError.nextRequired)) ∧
    (depth ≠ 1 → ∀ site' : Nat → List ι × Option Nat,
      searchInit site false depth url fuel = searchInit site' false depth url fuel) ∧
    (1 ≤ fuel → searchInit site false 1 url fuel =
      Except.ok (some ([url], (site url).1))) := by
  have herr : ∀ (s : Nat → List ι × Option Nat), depth ≠ 1 →
      searchInit s false depth url fuel =
        Except.error (if depth < 0 then CfgError.badDepth else CfgError.nextRequired) := by
    intro s h
    by_cases hd : depth < 0
    · simp [searchInit, hd]
    · simp [searchInit, hd, h]
  refine ⟨herr site, fun h site' => (herr site h).trans (herr site' h).symm, ?_⟩
  intro hf
  obtain ⟨f, rfl⟩ : ∃ f, fuel = f + 1 := ⟨fuel - 1, by omega⟩
  simp [searchInit, loadLoop]

/-- Site oracle for the C7 witness: every page shows one teaser and no next
pointer. -/
def siteOne : Nat → List Nat × Option Nat := fun _ => ([42], none)

/-- Claim C7, witness: without a `Next` field, `depth = 2` is rejected at
construction and `depth = 1` loads exactly the start page. -/
theorem C7_witness :
    searchInit siteOne false 2 7 1 = Except.error CfgError.nextRequired ∧
    searchInit siteOne false 2 7 1 =
      searchInit (fun _ => ([0], some 9)) false 2 7 1 ∧
    searchInit siteOne false 1 7 1 = Except.ok (some ([7], [42])) := by
  refine ⟨?_, ?_, ?_⟩
  · have h := (C7_depth_requires_next siteOne 2 7 1).1 (by decide)
    simpa using h
  · exact (C7_depth_requires_next siteOne 2 7 1).2.1 (by decide) (fun _ => ([0], some 9))
  · exact (C7_depth_requires_next siteOne 1 7 1).2.2 (by decide)

/-- Claim C8 (code bug): `Field.normalizer` runs `value.append(key)` on each
variants list of the class-level `autocorrection` dict, so a single evaluation
mutates the table: evaluating a field configured with
`{"km-h": ["km-g"]}` on the string `"x"` leaves the table as
`{"km-h": ["km-g", "km-h"]}`, no longer its construction-time value. -/
theorem C8_autocorrection_mutated :
    fieldEvaluate false (some [("km-h", ["km-g"])]) (some [XVal.str "x"]) =
      (PyData.str "x", some [("km-h", ["km-g", "km-h"])]) ∧
    ([("km-h", ["km-g", "km-h"])] : List (String × List String)) ≠
      [("km-h", ["km-g"])] := by
  refine ⟨by decide, by decide⟩

/-- Claim C10: building an `ItemPage` without an explicit `datamap` argument
writes only into the deep copy allocated at construction: every pre-existing
heap object — in particular the class-level `datamap` slot — is unchanged, the
produced record is `_processing` applied to the class template, and a second
build from the same class starts from the same template and produces the same
record. -/
theorem C10_class_datamap_preserved (heap : List DMapL) (classRef : Nat)
    (env : String → Except Unit PyData) (h : classRef < heap.length) :
    ((buildData heap classRef none env).1)[classRef]? = heap[classRef]? ∧
    ((buildData heap classRef none env).1).getD (buildData heap classRef none env).2
        DMapL.nil = procMap env (heap.getD classRef DMapL.nil) ∧
    ((buildData (buildData heap classRef none env).1 classRef none env).1).getD
        (buildData (buildData heap classRef none env).1 classRef none env).2
        DMapL.nil = procMap env (heap.getD classRef DMapL.nil) := by
  have hx : ∀ (l : List DMapL) (x : DMapL),
      (l ++ [x]).getD l.length DMapL.nil = x := by
    intro l x
    rw [List.getD_eq_getElem?_getD, List.getElem?_concat_length]
    rfl
  have hslot : (heap ++ [procMap env (heap.getD classRef DMapL.nil)])[classRef]? =
      heap[classRef]? := List.getElem?_append_left h
  have hsame : (heap ++ [procMap env (heap.getD classRef DMapL.nil)]).getD classRef
      DMapL.nil = heap.getD classRef DMapL.nil := by
    rw [List.getD_eq_getElem?_getD, hslot, ← List.getD_eq_getElem?_getD]
  refine ⟨hslot, ?_, ?_⟩
  · simp only [buildData]
    exact hx heap _
  · simp only [buildData]
    rw [hx, hsame]

/-- Claim C10, witness: a one-slot heap holding the class datamap, built
without an argument. -/
theorem C10_witness :
    ((buildData [DMapL.nil] 0 none (fun _ => Except.ok PyData.null)).1)[(0 : Nat)]? =
      [DMapL.nil][(0 : Nat)]? ∧
    ((buildData [DMapL.nil] 0 none (fun _ => Except.ok PyData.null)).1).getD
        (buildData [DMapL.nil] 0 none (fun _ => Except.ok PyData.null)).2 DMapL.nil =
      procMap (fun _ => Except.ok PyData.null) ([DMapL.nil].getD 0 DMapL.nil) ∧
    ((buildData (buildData [DMapL.nil] 0 none (fun _ => Except.ok PyData.null)).1 0 none
        (fun _ => Except.ok PyData.null)).1).getD
        (buildData (buildData [DMapL.nil] 0 none (fun _ => Except.ok PyData.null)).1 0 none
          (fun _ => Except.ok PyData.null)).2 DMapL.nil =
      procMap (fun _ => Except.ok PyData.null) ([DMapL.nil].getD 0 DMapL.nil) :=
  C10_class_datamap_preserved [DMapL.nil] 0 (fun _ => Except.ok PyData.null)
    (by decide)

end Scrapper
